import Mathlib

/-!
Verification of the qodev gitlab-api client core against its specification.

The source is a Python HTTP client for GitLab's REST API.  We shallowly embed
the pieces of the code the claims are about:

* `get_paginated` (src/qodev_gitlab_api/_base.py, `BaseClientMixin.get_paginated`):
  the pagination loop with a `max_pages` ceiling and the post-loop
  incompleteness warning;
* `_raise_for_status` (same file): the error classifier mapping HTTP status +
  response text to a typed error;
* `get`, `VariablesMixin.get_project_variable` and
  `MergeRequestsMixin.merge_mr`: single-request operations;
* `_encode_project_id`: `urllib.parse.quote(project_id, safe="")`;
* `VariablesMixin.set_project_variable`: the upsert convenience;
* `FilesMixin.upload_file`: the base64 inline source branch;
* `PipelinesMixin.wait_for_pipeline` and
  `PipelinesMixin.enrich_jobs_with_failure_logs`: the polling state machine
  and log-tail trimming.

The network is modelled as explicit inputs: a page server function for the
paginator, response values for single requests, and status/log oracles for the
poller.  Python exceptions become an `Exc` inductive returned through
`Except`.
-/

namespace GitLabApi

/-! ## Error classifier (`_raise_for_status`, exceptions.py) -/

/-- Exceptions the client raises.  `authenticationError`, `notFoundError`,
`apiError` and `configurationError` mirror the `GitLabError` hierarchy of
`exceptions.py`; `valueError` mirrors the Python builtin `ValueError` raised
for malformed inline base64 payloads in `upload_file`. -/
inductive Exc where
  | authenticationError (message : String)
  | notFoundError (message : String) (statusCode : Nat)
  | apiError (message : String) (statusCode : Nat) (responseBody : String)
  | configurationError (message : String)
  | valueError (message : String)
  deriving DecidableEq, Repr

/-- The kind of an exception, used to state distinctness of error kinds. -/
inductive ExcKind where
  | authentication
  | notFound
  | api
  | configuration
  | inputValidation
  deriving DecidableEq, Repr

def Exc.kind : Exc → ExcKind
  | .authenticationError _ => .authentication
  | .notFoundError _ _ => .notFound
  | .apiError _ _ _ => .api
  | .configurationError _ => .configuration
  | .valueError _ => .inputValidation

/-- Python string slicing `s[:n]`: the first `n` characters (code points). -/
def pyTake (s : String) (n : Nat) : String := ⟨s.data.take n⟩

/-- `_raise_for_status` (src/qodev_gitlab_api/_base.py lines 18-26):
`body = e.response.text[:500] if e.response.text else ""`, then 401 →
`AuthenticationError`, 404 → `NotFoundError(status_code=404)`, anything else →
`APIError(status_code=status, response_body=body)`. -/
def raiseForStatus (status : Nat) (text : String) : Exc :=
  let body := if text = "" then "" else pyTake text 500
  if status = 401 then
    .authenticationError ("Authentication failed: " ++ body)
  else if status = 404 then
    .notFoundError ("Not found: " ++ body) status
  else
    .apiError ("API error " ++ toString status ++ ": " ++ body) status body

/-- httpx `Response.raise_for_status` raises iff the status is not a success
status (2xx). -/
def is2xx (status : Nat) : Bool := 200 ≤ status && status < 300

/-! ## Paginator (`get_paginated`) -/

/-- One page response as `get_paginated` consumes it: the JSON-decoded list of
results and the `x-next-page` header (`none` when the header is absent). -/
structure PageResponse (α : Type) where
  results : List α
  xNextPage : Option String

/-- The loop-continuation test of `get_paginated` line 124:
`if "x-next-page" not in response.headers or not response.headers["x-next-page"]: break`,
i.e. the loop continues only when the header is present and non-empty. -/
def hasNextPage {α : Type} (r : PageResponse α) : Bool :=
  match r.xNextPage with
  | none => false
  | some s => !s.isEmpty

/-- Result of `get_paginated`: the accumulated items, the final
`pages_fetched` counter, the number of GET requests issued, and whether the
post-loop incompleteness warning (line 129-130) fired. -/
structure PaginateResult (α : Type) where
  results : List α
  pagesFetched : Nat
  requests : Nat
  warned : Bool
  deriving Repr

/-- The `while pages_fetched < max_pages` loop of `get_paginated`
(lines 112-127).  `server page` is the response to the GET for page `page`.
`remaining = max_pages - pages_fetched` bounds the loop, exactly as the
`while` condition does: each iteration that continues increments
`pages_fetched` by one.  Returns (accumulator, pages_fetched, requests). -/
def paginateAux {α : Type} (server : Nat → PageResponse α) :
    Nat → Nat → List α → Nat → Nat → List α × Nat × Nat
  | _page, 0, acc, fetched, reqs => (acc, fetched, reqs)
  | page, remaining + 1, acc, fetched, reqs =>
    let resp := server page
    if resp.results.isEmpty then
      (acc, fetched, reqs + 1)
    else if hasNextPage resp then
      paginateAux server (page + 1) remaining (acc ++ resp.results) (fetched + 1) (reqs + 1)
    else
      (acc ++ resp.results, fetched + 1, reqs + 1)

/-- `BaseClientMixin.get_paginated` (lines 100-133) in the non-error case:
start at page 1 with empty accumulator and `pages_fetched = 0`; after the
loop, warn iff `pages_fetched >= max_pages`. -/
def get_paginated {α : Type} (server : Nat → PageResponse α) (maxPages : Nat) :
    PaginateResult α :=
  let r := paginateAux server 1 maxPages [] 0 0
  { results := r.1
    pagesFetched := r.2.1
    requests := r.2.2
    warned := decide (maxPages ≤ r.2.1) }

/-- A server with two non-empty pages: page 1 carries a non-empty
`x-next-page` header, page 2 does not (natural end of data). -/
def twoPageServer : Nat → PageResponse Nat := fun page =>
  if page = 1 then ⟨[10], some "2"⟩ else ⟨[20], none⟩

/-- A server that always returns a non-empty page with a next-page header. -/
def constServer : Nat → PageResponse Nat := fun _ => ⟨[0], some "2"⟩

theorem paginateAux_run {α : Type} (server : Nat → PageResponse α) :
    ∀ (pages : List (List α)) (start remaining : Nat) (acc : List α) (fetched reqs : Nat),
      pages ≠ [] →
      pages.length ≤ remaining →
      (∀ j (h : j < pages.length), (server (start + j)).results = pages.get ⟨j, h⟩) →
      (∀ p ∈ pages, p ≠ []) →
      (∀ j, j + 1 < pages.length → hasNextPage (server (start + j)) = true) →
      hasNextPage (server (start + (pages.length - 1))) = false →
      paginateAux server start remaining acc fetched reqs =
        (acc ++ pages.flatten, fetched + pages.length, reqs + pages.length) := by
  intro pages
  induction pages with
  | nil => intro start remaining acc fetched reqs hne; exact absurd rfl hne
  | cons p ps ih =>
    intro start remaining acc fetched reqs _ hlen hres hnon hnext hlast
    match remaining with
    | 0 => simp at hlen
    | r + 1 =>
      have hp : (server start).results = p := by
        have := hres 0 (by simp)
        simpa using this
      have hpne : p ≠ [] := hnon p (by simp)
      have hempty : (server start).results.isEmpty = false := by
        rw [hp]; exact List.isEmpty_eq_false_iff_exists_mem.mpr
          (match p, hpne with
           | x :: _, _ => ⟨x, by simp⟩)
      rw [paginateAux]
      simp only [hempty]
      match ps, hlen, hres, hnon, hnext, hlast, ih with
      | [], hlen, hres, hnon, hnext, hlast, ih =>
        have hnxt : hasNextPage (server start) = false := by simpa using hlast
        simp [hnxt, hp]
      | q :: qs, hlen, hres, hnon, hnext, hlast, ih =>
        have hnxt : hasNextPage (server start) = true := by
          have := hnext 0 (by simp)
          simpa using this
        simp only [hnxt, if_true, hp]
        have hrec := ih (start + 1) r (acc ++ p) (fetched + 1) (reqs + 1)
          (by simp)
          (by simp at hlen ⊢; omega)
          (by
            intro j hj
            have := hres (j + 1) (by simpa using Nat.succ_lt_succ hj)
            have harith : start + (j + 1) = start + 1 + j := by omega
            rw [harith] at this
            simpa using this)
          (by intro x hx; exact hnon x (by simp [hx]))
          (by
            intro j hj
            have := hnext (j + 1) (by simpa using Nat.succ_lt_succ hj)
            have harith : start + (j + 1) = start + 1 + j := by omega
            rwa [harith] at this)
          (by
            have harith : start + ((p :: q :: qs).length - 1) =
                start + 1 + ((q :: qs).length - 1) := by
              simp only [List.length_cons]; omega
            rw [harith] at hlast
            exact hlast)
        rw [hrec]
        simp
        constructor
        · omega
        · omega

/-- The final `pages_fetched` counter never exceeds the fuel left plus the
counter's starting value: the loop body runs at most `remaining` more times. -/
theorem paginateAux_fetched_le {α : Type} (server : Nat → PageResponse α) :
    ∀ (remaining page : Nat) (acc : List α) (fetched reqs : Nat),
      (paginateAux server page remaining acc fetched reqs).2.1 ≤ fetched + remaining := by
  intro remaining
  induction remaining with
  | zero => intro page acc fetched reqs; simp [paginateAux]
  | succ r ih =>
    intro page acc fetched reqs
    rw [paginateAux]
    cases he : (server page).results.isEmpty with
    | true => simp [he]
    | false =>
      cases hn : hasNextPage (server page) with
      | true =>
        simp only [he, hn, Bool.false_eq_true, if_false, if_true]
        have := ih (page + 1) (acc ++ (server page).results) (fetched + 1) (reqs + 1)
        omega
      | false =>
        simp [he, hn]

/-- With every page non-empty and carrying a next-page indicator, the loop
runs its full fuel: it fetches exactly `remaining` more pages and issues
exactly `remaining` more requests. -/
theorem paginateAux_inexhaustible {α : Type} (server : Nat → PageResponse α) :
    ∀ (remaining page : Nat) (acc : List α) (fetched reqs : Nat),
      (∀ i, page ≤ i → (server i).results ≠ [] ∧ hasNextPage (server i) = true) →
      (paginateAux server page remaining acc fetched reqs).2.1 = fetched + remaining ∧
      (paginateAux server page remaining acc fetched reqs).2.2 = reqs + remaining := by
  intro remaining
  induction remaining with
  | zero => intro page acc fetched reqs _; simp [paginateAux]
  | succ r ih =>
    intro page acc fetched reqs h
    have hpage := h page (Nat.le_refl page)
    have he : (server page).results.isEmpty = false := by
      cases hres : (server page).results with
      | nil => exact absurd hres hpage.1
      | cons x xs => rfl
    rw [paginateAux]
    simp only [he, hpage.2, Bool.false_eq_true, if_false, if_true]
    have := ih (page + 1) (acc ++ (server page).results) (fetched + 1) (reqs + 1)
      (fun i hi => h i (by omega))
    omega

/-- C1: for every sequence of N non-empty pages of size P (N ≥ 1, P ≥ 1,
N within the `max_pages` ceiling) where every page's response carries a
non-empty `x-next-page` header except the last, `get_paginated` returns
exactly the concatenation of the N pages in page order and issues exactly
N GET requests. -/
theorem getPaginated_concatenates_all_pages {α : Type}
    (server : Nat → PageResponse α) (pages : List (List α)) (P maxPages : Nat)
    (hne : pages ≠ [])
    (hmax : pages.length ≤ maxPages)
    (hP : 1 ≤ P)
    (hsize : ∀ p ∈ pages, p.length = P)
    (hres : ∀ j (h : j < pages.length), (server (1 + j)).results = pages.get ⟨j, h⟩)
    (hnext : ∀ j, j + 1 < pages.length → hasNextPage (server (1 + j)) = true)
    (hlast : hasNextPage (server pages.length) = false) :
    (get_paginated server maxPages).results = pages.flatten ∧
    (get_paginated server maxPages).requests = pages.length := by
  have hnon : ∀ p ∈ pages, p ≠ [] := by
    intro p hp hnil
    have := hsize p hp
    rw [hnil] at this
    simp at this
    omega
  have hlast' : hasNextPage (server (1 + (pages.length - 1))) = false := by
    have hlen1 : 1 ≤ pages.length := by
      cases pages with
      | nil => exact absurd rfl hne
      | cons _ _ => simp
    have : 1 + (pages.length - 1) = pages.length := by omega
    rwa [this]
  have h := paginateAux_run server pages 1 maxPages [] 0 0
    hne hmax hres hnon hnext hlast'
  unfold get_paginated
  rw [h]
  simp

/-- Witness for C1: two pages of size 2 with a next-page header only on the
first. -/
theorem getPaginated_concatenates_all_pages_witness :
    (get_paginated (fun page => if page = 1 then ⟨[1, 2], some "2"⟩
        else ⟨[3, 4], none⟩) 100).results = [1, 2, 3, 4] ∧
    (get_paginated (fun page => if page = 1 then ⟨[1, 2], some "2"⟩
        else ⟨[3, 4], none⟩) 100).requests = 2 := by
  have h := getPaginated_concatenates_all_pages
    (fun page => if page = 1 then (⟨[1, 2], some "2"⟩ : PageResponse Nat)
      else ⟨[3, 4], none⟩)
    [[1, 2], [3, 4]] 2 100
    (by decide) (by decide) (by decide)
    (by intro p hp; fin_cases hp <;> rfl)
    (by intro j h; simp only [List.length_cons, List.length_nil] at h; interval_cases j <;> rfl)
    (by
      intro j hj
      simp only [List.length_cons, List.length_nil] at hj
      have hj0 : j = 0 := by omega
      subst hj0
      decide)
    (by decide)
  simpa using h

/-- C2 counterexample: with two non-empty pages, the second carrying no
`x-next-page` header, and `max_pages = 2`, the loop exits because the data is
exhausted (the last fetched page has no next-page indicator and all items were
returned), yet the incompleteness warning fires, because the code tests
`pages_fetched >= max_pages` after the loop regardless of the exit reason. -/
theorem getPaginated_warning_counterexample :
    (get_paginated twoPageServer 2).warned = true ∧
    hasNextPage (twoPageServer 2) = false ∧
    (twoPageServer 2).results = [20] ∧
    (get_paginated twoPageServer 2).results = [10, 20] ∧
    (get_paginated twoPageServer 2).requests = 2 := by
  decide

/-- C2 (amended): the incompleteness warning fires iff the final
`pages_fetched` counter equals `max_pages` — even when the last fetched page
also carried no next-page indicator (data exhausted); and when every response
is non-empty with a next-page indicator and `max_pages = K`, exactly K
requests are issued and the warning fires. -/
theorem getPaginated_warning_iff_ceiling {α : Type} :
    (∀ (server : Nat → PageResponse α) (K : Nat),
        (∀ i, 1 ≤ i → (server i).results ≠ [] ∧ hasNextPage (server i) = true) →
        (get_paginated server K).requests = K ∧
        (get_paginated server K).warned = true) ∧
    (∀ (server : Nat → PageResponse α) (maxPages : Nat),
        ((get_paginated server maxPages).warned = true ↔
          (get_paginated server maxPages).pagesFetched = maxPages)) := by
  constructor
  · intro server K h
    have hinf := paginateAux_inexhaustible server K 1 [] 0 0 (fun i hi => h i hi)
    unfold get_paginated
    refine ⟨by simpa using hinf.2, ?_⟩
    simp only [decide_eq_true_eq]
    omega
  · intro server maxPages
    have hle := paginateAux_fetched_le server maxPages 1 [] 0 0
    unfold get_paginated
    simp only [decide_eq_true_eq]
    omega

/-- Witness for C2 (amended): the inexhaustible-server part at a constant
server with `K = 3`; the iff part at the two-page server with
`max_pages = 2`. -/
theorem getPaginated_warning_iff_ceiling_witness :
    ((get_paginated constServer 3).requests = 3 ∧
      (get_paginated constServer 3).warned = true) ∧
    ((get_paginated twoPageServer 2).warned = true ↔
      (get_paginated twoPageServer 2).pagesFetched = 2) := by
  refine ⟨(@getPaginated_warning_iff_ceiling Nat).1 constServer 3 ?_,
    (@getPaginated_warning_iff_ceiling Nat).2 twoPageServer 2⟩
  intro i _
  exact ⟨by simp [constServer], by rfl⟩

/-! ## Single-request operations (`get`, `get_project_variable`) -/

/-- One HTTP response as a single-request operation consumes it: the status
code, the raw text (used by the error classifier), and the JSON-decoded
payload. -/
structure Response (β : Type) where
  status : Nat
  text : String
  body : β

/-- `BaseClientMixin.get` (lines 86-98): `response.raise_for_status()` then
`response.json()`; an `HTTPStatusError` is handed to `_raise_for_status` and
the classified error propagates. -/
def get {β : Type} (resp : Response β) : Except Exc β :=
  if is2xx resp.status then .ok resp.body
  else .error (raiseForStatus resp.status resp.text)

/-- `VariablesMixin.get_project_variable` (src/gitlab_client/_variables.py
lines 17-29): like `get`, except a 404 is mapped to `None` instead of being
classified ("Returns None if not found"). -/
def get_project_variable {β : Type} (resp : Response β) : Except Exc (Option β) :=
  if is2xx resp.status then .ok (some resp.body)
  else if resp.status = 404 then .ok none
  else .error (raiseForStatus resp.status resp.text)

/-- `MergeRequestsMixin.merge_mr` (src/qodev_gitlab_api/_merge_requests.py
lines 192-205): on `HTTPStatusError` it does NOT call `_raise_for_status`; it
raises `APIError(msg, status_code=status, response_body=text[:500])` directly
for every non-2xx status, including 401 and 404.  `msg` is the extracted
message (`json.loads(e.response.text).get("message", str(e))`, falling back
to `str(e)` when the body is not JSON); the extraction affects only the
message text, never the error kind, status code or truncated body. -/
def merge_mr {β : Type} (resp : Response β) (msg : String) : Except Exc β :=
  if is2xx resp.status then .ok resp.body
  else .error (.apiError msg resp.status (pyTake resp.text 500))

/-- C3: for every non-2xx status `s` and response text `t`, the classifier
yields an Authentication error on 401, a NotFound error with
`status_code = 404` on 404, and a Generic API error carrying `status_code = s`
otherwise; the stored body is always the first 500 characters of `t`, its
length is at most 500, and an empty `t` stores the empty string. -/
theorem raiseForStatus_classifies (s : Nat) (t : String) (h2xx : is2xx s = false) :
    (s = 401 → raiseForStatus s t =
      .authenticationError ("Authentication failed: " ++ pyTake t 500)) ∧
    (s = 404 → raiseForStatus s t =
      .notFoundError ("Not found: " ++ pyTake t 500) 404) ∧
    (s ≠ 401 → s ≠ 404 → raiseForStatus s t =
      .apiError ("API error " ++ toString s ++ ": " ++ pyTake t 500) s (pyTake t 500)) ∧
    (pyTake t 500).length ≤ 500 ∧
    (t = "" → pyTake t 500 = "") := by
  have hbody : (if t = "" then "" else pyTake t 500) = pyTake t 500 := by
    by_cases ht : t = ""
    · subst ht; rfl
    · simp [ht]
  refine ⟨?_, ?_, ?_, ?_, ?_⟩
  · intro h401
    subst h401
    simp [raiseForStatus, hbody]
  · intro h404
    subst h404
    simp [raiseForStatus, hbody]
  · intro h401 h404
    simp [raiseForStatus, hbody, h401, h404]
  · show (⟨t.data.take 500⟩ : String).length ≤ 500
    show (t.data.take 500).length ≤ 500
    simp
  · intro ht; subst ht; rfl

/-- Witness for C3: a 500 response with body "x". -/
theorem raiseForStatus_classifies_witness :
    raiseForStatus 500 "x" =
      .apiError ("API error " ++ toString 500 ++ ": " ++ pyTake "x" 500) 500 (pyTake "x" 500) := by
  exact (raiseForStatus_classifies 500 "x" (by decide)).2.2.1 (by decide) (by decide)

/-- C4 counterexample: `get_project_variable` is a single-request operation
that suppresses a non-2xx status (404) into a non-error return value
(`None`) instead of handing it to the classifier; and `merge_mr` is a
single-request operation that raises a Generic API error directly on a 401
instead of propagating the classifier's Authentication error. -/
theorem getProjectVariable_suppresses_404 :
    (get_project_variable (⟨404, "not found", (0 : Nat)⟩ : Response Nat) = .ok none ∧
      is2xx 404 = false) ∧
    (merge_mr (⟨401, "denied", (0 : Nat)⟩ : Response Nat) "401 Unauthorized" =
        .error (.apiError "401 Unauthorized" 401 "denied") ∧
      raiseForStatus 401 "denied" =
        .authenticationError "Authentication failed: denied" ∧
      (Exc.apiError "401 Unauthorized" 401 "denied").kind ≠
        (raiseForStatus 401 "denied").kind) := by
  refine ⟨⟨rfl, by decide⟩, ⟨rfl, rfl, by decide⟩⟩

/-- C4 (amended): every single-request operation hands a non-2xx response to
the error classifier and propagates the classified typed error — with two
exceptions.  The variable existence probe `get_project_variable` maps 404 to
`None` (a non-error return) and classifies every other non-2xx status; and
`merge_mr` raises a Generic API error directly for every non-2xx status
(carrying the status code and the truncated body), bypassing the classifier —
so on 401 its error kind differs from the classifier's Authentication kind —
though it never suppresses a non-2xx into a non-error return. -/
theorem singleRequest_propagates_classified_errors {β : Type} :
    (∀ resp : Response β, is2xx resp.status = false →
        get resp = .error (raiseForStatus resp.status resp.text)) ∧
    (∀ resp : Response β, is2xx resp.status = false → resp.status ≠ 404 →
        get_project_variable resp = .error (raiseForStatus resp.status resp.text)) ∧
    (∀ resp : Response β, resp.status = 404 →
        get_project_variable resp = .ok none) ∧
    (∀ (resp : Response β) (msg : String), is2xx resp.status = false →
        merge_mr resp msg = .error (.apiError msg resp.status (pyTake resp.text 500))) ∧
    (∀ (resp : Response β) (msg : String), resp.status = 401 →
        (Exc.apiError msg resp.status (pyTake resp.text 500)).kind ≠
          (raiseForStatus resp.status resp.text).kind) := by
  refine ⟨?_, ?_, ?_, ?_, ?_⟩
  · intro resp h
    simp [get, h]
  · intro resp h h404
    simp [get_project_variable, h, h404]
  · intro resp h404
    have h2 : is2xx resp.status = false := by rw [h404]; decide
    simp [get_project_variable, h404, h2]
    decide
  · intro resp msg h
    simp [merge_mr, h]
  · intro resp msg h401
    rw [h401]
    simp [raiseForStatus, Exc.kind]

/-- Witness for C4 (amended): a 500 response through `get` and through the
probe, a 404 response through the probe, and a 401 response through
`merge_mr`. -/
theorem singleRequest_propagates_classified_errors_witness :
    get (⟨500, "boom", (0 : Nat)⟩ : Response Nat) =
      .error (raiseForStatus 500 "boom") ∧
    get_project_variable (⟨500, "boom", (0 : Nat)⟩ : Response Nat) =
      .error (raiseForStatus 500 "boom") ∧
    get_project_variable (⟨404, "gone", (0 : Nat)⟩ : Response Nat) = .ok none ∧
    merge_mr (⟨401, "denied", (0 : Nat)⟩ : Response Nat) "401 Unauthorized" =
      .error (.apiError "401 Unauthorized" 401 (pyTake "denied" 500)) ∧
    (Exc.apiError "401 Unauthorized" 401 (pyTake "denied" 500)).kind ≠
      (raiseForStatus 401 "denied").kind := by
  refine ⟨?_, ?_, ?_, ?_, ?_⟩
  · exact (@singleRequest_propagates_classified_errors Nat).1 ⟨500, "boom", 0⟩ (by decide)
  · exact (@singleRequest_propagates_classified_errors Nat).2.1 ⟨500, "boom", 0⟩
      (by decide) (by decide)
  · exact (@singleRequest_propagates_classified_errors Nat).2.2.1 ⟨404, "gone", 0⟩ rfl
  · exact (@singleRequest_propagates_classified_errors Nat).2.2.2.1 ⟨401, "denied", 0⟩
      "401 Unauthorized" (by decide)
  · exact (@singleRequest_propagates_classified_errors Nat).2.2.2.2 ⟨401, "denied", 0⟩
      "401 Unauthorized" rfl

/-! ## Project-id encoder (`_encode_project_id` = `urllib.parse.quote(s, safe="")`) -/

/-- Uppercase hexadecimal digit for `n < 16`, as `urllib.parse.quote` emits
(`'%%%02X'`). -/
def hexDigit (n : Nat) : Char :=
  if n < 10 then Char.ofNat (48 + n) else Char.ofNat (55 + n)

/-- UTF-8 encoding of one character, as Python encodes a `str` to bytes
before percent-encoding it. -/
def utf8Bytes (c : Char) : List Nat :=
  let n := c.toNat
  if n < 0x80 then [n]
  else if n < 0x800 then [0xC0 + n / 0x40, 0x80 + n % 0x40]
  else if n < 0x10000 then
    [0xE0 + n / 0x1000, 0x80 + n / 0x40 % 0x40, 0x80 + n % 0x40]
  else
    [0xF0 + n / 0x40000, 0x80 + n / 0x1000 % 0x40, 0x80 + n / 0x40 % 0x40, 0x80 + n % 0x40]

/-- `urllib.parse.quote`'s always-safe characters: ASCII letters, digits and
`_.-~`; with `safe=""` every other character is percent-encoded. -/
def quoteSafe (c : Char) : Bool :=
  c.isAlpha || c.isDigit || c = '_' || c = '.' || c = '-' || c = '~'

/-- Percent-encoding of one character under `quote(·, safe="")`. -/
def quoteChar (c : Char) : List Char :=
  if quoteSafe c then [c]
  else (utf8Bytes c).flatMap (fun b => ['%', hexDigit (b / 16), hexDigit (b % 16)])

/-- `BaseClientMixin._encode_project_id` (lines 82-84):
`quote(project_id, safe="")`. -/
def encode_project_id (s : String) : String := ⟨s.data.flatMap quoteChar⟩

/-- The characters that can occur in a GitLab project identifier (a numeric
id or a `namespace/path` string): ASCII letters, digits, `_`, `.`, `-` and
the path separator `/`. -/
def projectIdChar (c : Char) : Bool :=
  c.isAlphanum || c = '_' || c = '.' || c = '-' || c = '/'

/-- On project-identifier characters, `quoteChar` only rewrites `/`. -/
theorem quoteChar_projectIdChar (c : Char) (hc : projectIdChar c = true) :
    quoteChar c = if c = '/' then ['%', '2', 'F'] else [c] := by
  by_cases hcslash : c = '/'
  · subst hcslash; decide
  · simp only [hcslash, if_false]
    have h5 : c.isAlphanum = true ∨ c = '_' ∨ c = '.' ∨ c = '-' ∨ c = '/' := by
      simpa only [projectIdChar, Bool.or_eq_true, decide_eq_true_eq, or_assoc] using hc
    have hsafe : quoteSafe c = true := by
      simp only [quoteSafe, Bool.or_eq_true, decide_eq_true_eq, or_assoc]
      rcases h5 with ha | h1 | h2 | h3 | h4
      · have hd : c.isAlpha = true ∨ c.isDigit = true := by
          simpa [Char.isAlphanum] using ha
        tauto
      · tauto
      · tauto
      · tauto
      · exact absurd h4 hcslash
    simp [quoteChar, hsafe]

theorem flatMap_quoteChar (l : List Char)
    (hvalid : ∀ c ∈ l, projectIdChar c = true) :
    l.flatMap quoteChar =
      l.flatMap (fun c => if c = '/' then ['%', '2', 'F'] else [c]) := by
  induction l with
  | nil => rfl
  | cons c cs ih =>
    have hc := quoteChar_projectIdChar c (hvalid c (by simp))
    have hcs : ∀ x ∈ cs, projectIdChar x = true := fun x hx => hvalid x (by simp [hx])
    simp only [List.flatMap_cons, hc, ih hcs]

/-- C7: for every project identifier containing `/`, the encoded path segment
has every `/` replaced by `%2F` and every other character of the identifier
unaltered. -/
theorem encodeProjectId_escapes_slashes (s : String)
    (hvalid : ∀ c ∈ s.data, projectIdChar c = true)
    (hslash : '/' ∈ s.data) :
    encode_project_id s =
      ⟨s.data.flatMap (fun c => if c = '/' then ['%', '2', 'F'] else [c])⟩ := by
  unfold encode_project_id
  exact congrArg String.mk (flatMap_quoteChar s.data hvalid)

/-- Witness for C7: the identifier `"group/proj"`. -/
theorem encodeProjectId_escapes_slashes_witness :
    encode_project_id "group/proj" = "group%2Fproj" := by
  have h := encodeProjectId_escapes_slashes "group/proj" (by decide) (by decide)
  rw [h]
  rfl

/-! ## Variable upsert (`set_project_variable`, src/gitlab_client/_variables.py) -/

/-- The requests a `set_project_variable` invocation can issue: the existence
probe (GET), the create (POST) and the update (PUT). -/
inductive VarRequest where
  | probe
  | create
  | update
  deriving DecidableEq, Repr

/-- `VariablesMixin.create_project_variable` (lines 51-82): one POST,
classified on non-2xx. -/
def create_project_variable {β : Type} (resp : Response β) : Except Exc β :=
  if is2xx resp.status then .ok resp.body
  else .error (raiseForStatus resp.status resp.text)

/-- `VariablesMixin.update_project_variable` (lines 84-115): one PUT,
classified on non-2xx. -/
def update_project_variable {β : Type} (resp : Response β) : Except Exc β :=
  if is2xx resp.status then .ok resp.body
  else .error (raiseForStatus resp.status resp.text)

/-- `VariablesMixin.set_project_variable` (lines 117-144): probe with
`get_project_variable`, then `if existing:` update else create, returning
`(variable, action)`.  The probe's JSON object is truthy whenever present
(GitLab variable objects are non-empty dicts).  The second component records
the requests issued, in order. -/
def set_project_variable {β : Type} (probeResp createResp updateResp : Response β) :
    Except Exc (β × String) × List VarRequest :=
  match get_project_variable probeResp with
  | .error e => (.error e, [.probe])
  | .ok (some _) =>
    (match update_project_variable updateResp with
     | .ok v => (.ok (v, "updated"), [.probe, .update])
     | .error e => (.error e, [.probe, .update]))
  | .ok none =>
    (match create_project_variable createResp with
     | .ok v => (.ok (v, "created"), [.probe, .create])
     | .error e => (.error e, [.probe, .create]))

/-- C8: when the existence probe finds no remote variable (404), the upsert
issues exactly one create and no update, returning action "created" on
success; when the probe finds the variable (2xx), it issues exactly one
update and no create, returning action "updated" on success; and no
invocation ever issues both a create and an update. -/
theorem setProjectVariable_upsert {β : Type} (pr cr ur : Response β) :
    (pr.status = 404 →
        (set_project_variable pr cr ur).2 = [.probe, .create] ∧
        (is2xx cr.status = true →
          (set_project_variable pr cr ur).1 = .ok (cr.body, "created"))) ∧
    (is2xx pr.status = true →
        (set_project_variable pr cr ur).2 = [.probe, .update] ∧
        (is2xx ur.status = true →
          (set_project_variable pr cr ur).1 = .ok (ur.body, "updated"))) ∧
    ¬(VarRequest.create ∈ (set_project_variable pr cr ur).2 ∧
      VarRequest.update ∈ (set_project_variable pr cr ur).2) := by
  refine ⟨?_, ?_, ?_⟩
  · intro h404
    have h2 : is2xx pr.status = false := by rw [h404]; decide
    have hprobe : get_project_variable pr = .ok none := by
      simp [get_project_variable, h404, h2]
      decide
    constructor
    · simp only [set_project_variable, hprobe]
      cases hcr : create_project_variable cr <;> rfl
    · intro hcr2
      simp only [set_project_variable, hprobe]
      have : create_project_variable cr = .ok cr.body := by
        simp [create_project_variable, hcr2]
      rw [this]
  · intro h2
    have hprobe : get_project_variable pr = .ok (some pr.body) := by
      simp [get_project_variable, h2]
    constructor
    · simp only [set_project_variable, hprobe]
      cases hur : update_project_variable ur <;> rfl
    · intro hur2
      simp only [set_project_variable, hprobe]
      have : update_project_variable ur = .ok ur.body := by
        simp [update_project_variable, hur2]
      rw [this]
  · intro ⟨hc, hu⟩
    simp only [set_project_variable] at hc hu
    cases hpr : get_project_variable pr with
    | error e => rw [hpr] at hc; simp at hc
    | ok o =>
      cases o with
      | some v =>
        rw [hpr] at hc
        cases hur : update_project_variable ur <;> rw [hur] at hc <;> simp at hc
      | none =>
        rw [hpr] at hu
        cases hcr : create_project_variable cr <;> rw [hcr] at hu <;> simp at hu

/-- Witness for C8: a 404 probe followed by a successful create, and a 200
probe followed by a successful update. -/
theorem setProjectVariable_upsert_witness :
    ((set_project_variable (⟨404, "", 0⟩ : Response Nat) ⟨201, "", 7⟩ ⟨200, "", 8⟩).2 =
        [.probe, .create] ∧
      (set_project_variable (⟨404, "", 0⟩ : Response Nat) ⟨201, "", 7⟩ ⟨200, "", 8⟩).1 =
        .ok (7, "created")) ∧
    ((set_project_variable (⟨200, "", 5⟩ : Response Nat) ⟨201, "", 7⟩ ⟨200, "", 8⟩).2 =
        [.probe, .update] ∧
      (set_project_variable (⟨200, "", 5⟩ : Response Nat) ⟨201, "", 7⟩ ⟨200, "", 8⟩).1 =
        .ok (8, "updated")) := by
  have h1 := (setProjectVariable_upsert (⟨404, "", 0⟩ : Response Nat)
    ⟨201, "", 7⟩ ⟨200, "", 8⟩).1 rfl
  have h2 := (setProjectVariable_upsert (⟨200, "", 5⟩ : Response Nat)
    ⟨201, "", 7⟩ ⟨200, "", 8⟩).2.1 (by decide)
  exact ⟨⟨h1.1, h1.2 (by decide)⟩, ⟨h2.1, h2.2 (by decide)⟩⟩

/-! ## File upload (`upload_file`, src/gitlab_client/_files.py) -/

/-- The characters of the standard base64 alphabet (excluding padding). -/
def isBase64Char (c : Char) : Bool :=
  c.isAlpha || c.isDigit || c = '+' || c = '/'

/-- Validity under `base64.b64decode(s, validate=True)`: the string must
fully match `[A-Za-z0-9+/]*={0,2}` (CPython raises `binascii.Error`
"Non-base64 digit found" otherwise) and the length must be a multiple of 4
(`binascii.a2b_base64` raises "Incorrect padding" otherwise). -/
def pyValidBase64 (s : String) : Bool :=
  let cs := s.data
  let dataPart := cs.takeWhile isBase64Char
  let rest := cs.drop dataPart.length
  rest.all (fun c => c == '=') && rest.length ≤ 2 && cs.length % 4 == 0

/-- The file-source tagged union of `models.py`: `FileFromPath` (a `path`
key) or `FileFromBase64` (`base64` and `filename` keys); `upload_file`
discriminates on the presence of `"path"`. -/
inductive FileSource where
  | fromPath (path : String)
  | fromBase64 (b64 : String) (filename : String)

/-- Result of `upload_file`: the returned value or raised exception, and how
many network requests were issued. -/
structure UploadOutcome (β : Type) where
  result : Except Exc β
  networkRequests : Nat

/-- `FilesMixin.upload_file` (lines 36-64): for an inline base64 source,
`base64.b64decode(source["base64"], validate=True)` runs first; on
`binascii.Error` the wrapper raises `ValueError(f"Invalid base64 data: {e}")`
before any network request.  Only then is the POST issued and classified on
non-2xx.  (The Lean model keeps the constant message prefix; the Python
message appends the underlying binascii error text.) -/
def upload_file {β : Type} (source : FileSource) (postResp : Response β) :
    UploadOutcome β :=
  match source with
  | .fromPath _ =>
    if is2xx postResp.status then ⟨.ok postResp.body, 1⟩
    else ⟨.error (raiseForStatus postResp.status postResp.text), 1⟩
  | .fromBase64 b64 _ =>
    if pyValidBase64 b64 then
      if is2xx postResp.status then ⟨.ok postResp.body, 1⟩
      else ⟨.error (raiseForStatus postResp.status postResp.text), 1⟩
    else ⟨.error (.valueError "Invalid base64 data"), 0⟩

/-- C9: for every inline base64 source whose payload is not valid base64,
`upload_file` raises an input-validation error whose kind differs from every
remote-API error kind (Authentication, NotFound, Generic API, Configuration)
and issues no network request. -/
theorem uploadFile_invalid_base64 {β : Type} (b64 filename : String)
    (postResp : Response β) (hinv : pyValidBase64 b64 = false) :
    (upload_file (.fromBase64 b64 filename) postResp).result =
      .error (.valueError "Invalid base64 data") ∧
    (upload_file (.fromBase64 b64 filename) postResp).networkRequests = 0 ∧
    (Exc.valueError "Invalid base64 data").kind = ExcKind.inputValidation ∧
    ExcKind.inputValidation ≠ ExcKind.authentication ∧
    ExcKind.inputValidation ≠ ExcKind.notFound ∧
    ExcKind.inputValidation ≠ ExcKind.api ∧
    ExcKind.inputValidation ≠ ExcKind.configuration := by
  refine ⟨?_, ?_, rfl, by decide, by decide, by decide, by decide⟩
  · simp [upload_file, hinv]
  · simp [upload_file, hinv]

/-- Witness for C9: the payload `"not-valid!!!"` from the repository's own
test suite. -/
theorem uploadFile_invalid_base64_witness :
    (upload_file (.fromBase64 "not-valid!!!" "test.png")
        (⟨201, "", (0 : Nat)⟩ : Response Nat)).result =
      .error (.valueError "Invalid base64 data") ∧
    (upload_file (.fromBase64 "not-valid!!!" "test.png")
        (⟨201, "", (0 : Nat)⟩ : Response Nat)).networkRequests = 0 := by
  have h := uploadFile_invalid_base64 "not-valid!!!" "test.png"
    (⟨201, "", (0 : Nat)⟩ : Response Nat) (by decide)
  exact ⟨h.1, h.2.1⟩

/-! ## Poller (`wait_for_pipeline`, src/gitlab_client/_pipelines.py) -/

/-- A pipeline JSON object as `wait_for_pipeline` consults it: the `status`
and `web_url` keys (`none` when absent), plus whether the object carries any
further keys (needed for Python dict truthiness in `if pipeline`). -/
structure Pipeline where
  status : Option String
  webUrl : Option String
  otherKeys : Bool
  deriving DecidableEq, Repr

/-- Python truthiness of the pipeline dict: non-empty. -/
def Pipeline.truthy (p : Pipeline) : Bool :=
  p.status.isSome || p.webUrl.isSome || p.otherKeys

/-- A job JSON object as the poller consults it.  GitLab job objects always
carry an `id`; the other consulted keys are read with `.get` and may be
absent. -/
structure Job where
  id : Nat
  name : Option String
  status : Option String
  webUrl : Option String
  deriving DecidableEq, Repr

/-- `status in ("success", "failed", "canceled", "skipped")` (line 119);
`status` is `pipeline.get("status")`, and `None` is never in the tuple. -/
def isTerminalStatus : Option String → Bool
  | some s => s == "success" || s == "failed" || s == "canceled" || s == "skipped"
  | none => false

/-- Python `str.strip()`'s ASCII whitespace characters (space, tab, newline,
carriage return, vertical tab, form feed). -/
def pyIsSpace (c : Char) : Bool :=
  c == ' ' || c == '\t' || c == '\n' || c == '\r' || c.toNat == 11 || c.toNat == 12

/-- Python `str.strip()`: drop leading and trailing whitespace. -/
def pyStrip (s : String) : String :=
  ⟨((s.data.dropWhile pyIsSpace).reverse.dropWhile pyIsSpace).reverse⟩

/-- Python `l[-n:]`: the last at-most-`n` elements. -/
def lastN {α : Type} (n : Nat) (l : List α) : List α :=
  l.drop (l.length - n)

/-- Split a character list on a separator, keeping empty segments, as Python
`str.split(sep)` does for a one-character separator. -/
def splitOnChar (sep : Char) : List Char → List (List Char)
  | [] => [[]]
  | c :: cs =>
    match splitOnChar sep cs with
    | [] => [[]]
    | ys :: yss => if c = sep then [] :: ys :: yss else (c :: ys) :: yss

/-- Python `log.split("\n")`: `"".split` gives `[""]`, separators at the ends
produce empty segments. -/
def splitNl (s : String) : List String :=
  (splitOnChar (Char.ofNat 10) s.data).map (fun l => ⟨l⟩)

/-- The failed-log tail of `wait_for_pipeline` (lines 159-160):
`lines = log.strip().split("\n")`, then `"\n".join(lines[-10:])`.  Note no
blank-line filtering happens here. -/
def waitLogTail (log : String) : String :=
  String.intercalate "\n" (lastN 10 (splitNl (pyStrip log)))

/-- The failed-log tail of `enrich_jobs_with_failure_logs` (lines 90-92):
`log_lines = full_log.split("\n")`, keep lines whose `line.strip()` is
truthy (non-blank), then take the last 10 and join. -/
def enrichLogTail (log : String) : String :=
  String.intercalate "\n"
    (lastN 10 ((splitNl log).filter (fun l => !(pyStrip l).isEmpty)))

/-- `PipelinesMixin.enrich_jobs_with_failure_logs` (lines 82-96): for each
job, if its status is "failed", attempt the log fetch and attach the filtered
10-line tail; a failed fetch leaves the job without a tail (the copy is still
appended). -/
def enrich_jobs_with_failure_logs (jobLog : Nat → Except Unit String)
    (jobs : List Job) : List (Job × Option String) :=
  jobs.map (fun j =>
    (j, if j.status == some "failed" then
          match jobLog j.id with
          | .ok log => some (enrichLogTail log)
          | .error _ => none
        else none))

/-- A failed-job detail record (lines 151-163): the consulted keys plus
`last_log_lines`. -/
structure FailedJobDetail where
  id : Option Nat
  name : Option String
  status : Option String
  webUrl : Option String
  lastLogLines : String
  deriving DecidableEq, Repr

/-- Build one failed-job detail record (lines 151-163): on a successful log
fetch the tail is `waitLogTail`; on any exception the placeholder
`"(log unavailable)"` is recorded instead. -/
def mkFailedJobDetail (jobLog : Nat → Except Unit String) (j : Job) :
    FailedJobDetail :=
  { id := some j.id
    name := j.name
    status := j.status
    webUrl := j.webUrl
    lastLogLines :=
      match jobLog j.id with
      | .ok log => waitLogTail log
      | .error _ => "(log unavailable)" }

/-- The `job_summary` counts (lines 141-145). -/
structure JobSummary where
  total : Nat
  success : Nat
  failed : Nat
  deriving DecidableEq, Repr

/-- The result bundle of `wait_for_pipeline` (lines 130-136), without the
wall-clock `total_duration` field (pure timing data). -/
structure WaitResult where
  finalStatus : String
  pipelineId : Nat
  pipelineUrl : Option String
  checksPerformed : Nat
  jobSummary : Option JobSummary
  failedJobs : Option (List FailedJobDetail)
  deriving DecidableEq, Repr

/-- The `while True` loop of `wait_for_pipeline` (lines 112-127).  `fetch k`
is the pipeline returned by the k-th `get_pipeline` call (k starts at 1, as
`checks` is incremented at the top of each iteration); `elapsed k` is
`time.time() - start_time` as computed at the top of iteration k (before the
fetch, but tested after the terminal check).  Returns the final status, the
`checks` counter and the last fetched snapshot; `none` models a run longer
than the fuel. -/
def waitLoop (fetch : Nat → Pipeline) (elapsed : Nat → ℚ) (timeoutSeconds : ℚ) :
    Nat → Nat → Option (String × Nat × Pipeline)
  | 0, _ => none
  | fuel + 1, k =>
    let p := fetch k
    if isTerminalStatus p.status then some (p.status.getD "", k, p)
    else if elapsed k > timeoutSeconds then some ("timeout", k, p)
    else waitLoop fetch elapsed timeoutSeconds fuel (k + 1)

/-- `PipelinesMixin.wait_for_pipeline` (lines 98-168).  The loop, then the
result bundle; enrichment (lines 138-166) only when the pipeline dict is
truthy and the final status is not "timeout": the job fetch (swallowed on
error), the summary counts, and — when `include_failed_logs` and the final
status is "failed" — detail records for the first 5 failed jobs in listing
order. -/
def wait_for_pipeline (fetch : Nat → Pipeline) (elapsed : Nat → ℚ)
    (jobsResult : Except Unit (List Job)) (jobLog : Nat → Except Unit String)
    (pipelineId : Nat) (timeoutSeconds : ℚ) (includeFailedLogs : Bool)
    (fuel : Nat) : Option WaitResult :=
  match waitLoop fetch elapsed timeoutSeconds fuel 1 with
  | none => none
  | some (finalStatus, checks, p) =>
    let base : WaitResult :=
      { finalStatus := finalStatus
        pipelineId := pipelineId
        pipelineUrl := if p.truthy then p.webUrl else none
        checksPerformed := checks
        jobSummary := none
        failedJobs := none }
    if p.truthy && !(finalStatus == "timeout") then
      match jobsResult with
      | .error _ => some base
      | .ok jobs =>
        let summary : JobSummary :=
          { total := jobs.length
            success := (jobs.filter (fun j => j.status == some "success")).length
            failed := (jobs.filter (fun j => j.status == some "failed")).length }
        let withSummary := { base with jobSummary := some summary }
        if includeFailedLogs && finalStatus == "failed" then
          some { withSummary with
            failedJobs := some
              (((jobs.filter (fun j => j.status == some "failed")).take 5).map
                (mkFailedJobDetail jobLog)) }
        else some withSummary
    else some base

/-- The loop exits at the first iteration K whose fetch is terminal or whose
start-of-iteration elapsed time exceeds the bound; the terminal check wins
when both hold. -/
theorem waitLoop_exits (fetch : Nat → Pipeline) (elapsed : Nat → ℚ) (timeout : ℚ) :
    ∀ (fuel k K : Nat), k ≤ K → K - k < fuel →
      (∀ i, k ≤ i → i < K →
        isTerminalStatus (fetch i).status = false ∧ ¬(elapsed i > timeout)) →
      (isTerminalStatus (fetch K).status = true ∨
        (isTerminalStatus (fetch K).status = false ∧ elapsed K > timeout)) →
      waitLoop fetch elapsed timeout fuel k =
        (if isTerminalStatus (fetch K).status then
          some ((fetch K).status.getD "", K, fetch K)
         else some ("timeout", K, fetch K)) := by
  intro fuel
  induction fuel with
  | zero => intro k K hk hfuel _ _; omega
  | succ f ih =>
    intro k K hk hfuel hpre hexit
    rw [waitLoop]
    by_cases hkK : k = K
    · subst hkK
      rcases hexit with ht | ⟨ht, he⟩
      · simp [ht]
      · simp only [ht, Bool.false_eq_true, if_false]
        rw [if_pos he]
    · have hklt : k < K := by omega
      have hk1 := hpre k (Nat.le_refl k) hklt
      simp only [hk1.1, Bool.false_eq_true, if_false]
      rw [if_neg hk1.2]
      exact ih (k + 1) K (by omega) (by omega)
        (fun i h1 h2 => hpre i (by omega) h2) hexit

/-- Any loop exit reports a `checks` counter at least the starting iteration
index. -/
theorem waitLoop_checks_ge (fetch : Nat → Pipeline) (elapsed : Nat → ℚ) (timeout : ℚ) :
    ∀ (fuel k : Nat) (st : String) (checks : Nat) (p : Pipeline),
      waitLoop fetch elapsed timeout fuel k = some (st, checks, p) → k ≤ checks := by
  intro fuel
  induction fuel with
  | zero => intro k st checks p h; simp [waitLoop] at h
  | succ f ih =>
    intro k st checks p h
    rw [waitLoop] at h
    by_cases ht : isTerminalStatus (fetch k).status
    · simp [ht] at h
      omega
    · simp only [ht, Bool.false_eq_true, if_false] at h
      by_cases he : elapsed k > timeout
      · rw [if_pos he] at h
        simp at h
        omega
      · rw [if_neg he] at h
        have := ih (k + 1) st checks p h
        omega

/-- Whatever enrichment happens after the loop, the result keeps the loop's
final status, checks counter and pipeline-url computation. -/
theorem waitForPipeline_fields (fetch : Nat → Pipeline) (elapsed : Nat → ℚ)
    (jobsResult : Except Unit (List Job)) (jobLog : Nat → Except Unit String)
    (pipelineId : Nat) (timeoutSeconds : ℚ) (includeFailedLogs : Bool)
    (fuel : Nat) (st : String) (checks : Nat) (p : Pipeline)
    (hloop : waitLoop fetch elapsed timeoutSeconds fuel 1 = some (st, checks, p)) :
    ∃ r, wait_for_pipeline fetch elapsed jobsResult jobLog pipelineId
        timeoutSeconds includeFailedLogs fuel = some r ∧
      r.finalStatus = st ∧ r.checksPerformed = checks ∧
      r.pipelineUrl = (if p.truthy then p.webUrl else none) := by
  unfold wait_for_pipeline
  rw [hloop]
  dsimp only
  by_cases hc : (p.truthy && !(st == "timeout")) = true
  · rw [if_pos hc]
    cases jobsResult with
    | error e => exact ⟨_, rfl, rfl, rfl, rfl⟩
    | ok jobs =>
      dsimp only
      by_cases hf : (includeFailedLogs && st == "failed") = true
      · rw [if_pos hf]
        exact ⟨_, rfl, rfl, rfl, rfl⟩
      · rw [if_neg hf]
        exact ⟨_, rfl, rfl, rfl, rfl⟩
  · rw [if_neg hc]
    exact ⟨_, rfl, rfl, rfl, rfl⟩

/-- C10: the loop body runs before any timeout evaluation, so every returned
result reports at least one status fetch; and a terminal status on the very
first fetch becomes the final status with `checks_performed = 1`, with no
constraint on `elapsed` or `timeout_seconds` (in particular even when the
elapsed time already exceeds the bound, or the bound is ≤ 0). -/
theorem waitForPipeline_first_fetch_priority (fetch : Nat → Pipeline)
    (elapsed : Nat → ℚ) (jobsResult : Except Unit (List Job))
    (jobLog : Nat → Except Unit String) (pipelineId : Nat)
    (timeoutSeconds : ℚ) (includeFailedLogs : Bool) :
    (∀ (fuel : Nat) (r : WaitResult),
        wait_for_pipeline fetch elapsed jobsResult jobLog pipelineId
          timeoutSeconds includeFailedLogs fuel = some r →
        1 ≤ r.checksPerformed) ∧
    (∀ (fuel : Nat) (s : String), 1 ≤ fuel →
        (fetch 1).status = some s → isTerminalStatus (some s) = true →
        ∃ r, wait_for_pipeline fetch elapsed jobsResult jobLog pipelineId
            timeoutSeconds includeFailedLogs fuel = some r ∧
          r.finalStatus = s ∧ r.checksPerformed = 1) := by
  constructor
  · intro fuel r h
    cases hloop : waitLoop fetch elapsed timeoutSeconds fuel 1 with
    | none =>
      unfold wait_for_pipeline at h
      rw [hloop] at h
      simp at h
    | some v =>
      obtain ⟨st, checks, p⟩ := v
      obtain ⟨r', hr', _, hchecks, _⟩ := waitForPipeline_fields fetch elapsed
        jobsResult jobLog pipelineId timeoutSeconds includeFailedLogs fuel
        st checks p hloop
      rw [hr'] at h
      obtain rfl : r' = r := by injection h
      rw [hchecks]
      exact waitLoop_checks_ge fetch elapsed timeoutSeconds fuel 1 st checks p hloop
  · intro fuel s hfuel hs hterm
    obtain ⟨f, rfl⟩ : ∃ f, fuel = f + 1 := ⟨fuel - 1, by omega⟩
    have hloop : waitLoop fetch elapsed timeoutSeconds (f + 1) 1 =
        some (s, 1, fetch 1) := by
      rw [waitLoop]
      simp [hs, hterm]
    obtain ⟨r, hr, hst, hchecks, _⟩ := waitForPipeline_fields fetch elapsed
      jobsResult jobLog pipelineId timeoutSeconds includeFailedLogs (f + 1)
      s 1 (fetch 1) hloop
    exact ⟨r, hr, hst, hchecks⟩

/-- Witness for C10: a pipeline that is already "failed" at the first fetch
while the elapsed time (100) already exceeds the bound (0): one check, final
status "failed", not "timeout". -/
theorem waitForPipeline_first_fetch_priority_witness :
    ∃ r, wait_for_pipeline (fun _ => ⟨some "failed", some "u", false⟩)
        (fun _ => (100 : ℚ)) (.error ()) (fun _ => .error ()) 1 0 true 5 = some r ∧
      r.finalStatus = "failed" ∧ r.checksPerformed = 1 := by
  exact (waitForPipeline_first_fetch_priority (fun _ => ⟨some "failed", some "u", false⟩)
    (fun _ => (100 : ℚ)) (.error ()) (fun _ => .error ()) 1 0 true).2 5 "failed"
    (by omega) rfl (by decide)

/-- C6: when no status fetch up to iteration K is terminal, the elapsed time
first exceeds the bound at iteration K, and the last snapshot carries a
`web_url`, the poll result has final status "timeout", still carries the last
snapshot's URL, and has no job-summary and no failed-job enrichment. -/
theorem waitForPipeline_timeout_keeps_url (fetch : Nat → Pipeline)
    (elapsed : Nat → ℚ) (jobsResult : Except Unit (List Job))
    (jobLog : Nat → Except Unit String) (pipelineId : Nat)
    (timeoutSeconds : ℚ) (includeFailedLogs : Bool) (K fuel : Nat) (u : String)
    (hK : 1 ≤ K) (hfuel : K ≤ fuel)
    (hnonterm : ∀ i, 1 ≤ i → i ≤ K → isTerminalStatus (fetch i).status = false)
    (hbefore : ∀ i, 1 ≤ i → i < K → ¬(elapsed i > timeoutSeconds))
    (hK2 : elapsed K > timeoutSeconds)
    (hurl : (fetch K).webUrl = some u) :
    wait_for_pipeline fetch elapsed jobsResult jobLog pipelineId timeoutSeconds
        includeFailedLogs fuel =
      some { finalStatus := "timeout", pipelineId := pipelineId,
             pipelineUrl := some u, checksPerformed := K,
             jobSummary := none, failedJobs := none } := by
  have hloop := waitLoop_exits fetch elapsed timeoutSeconds fuel 1 K hK (by omega)
    (fun i h1 h2 => ⟨hnonterm i h1 (by omega), hbefore i h1 h2⟩)
    (Or.inr ⟨hnonterm K hK (Nat.le_refl K), hK2⟩)
  rw [if_neg (by rw [hnonterm K hK (Nat.le_refl K)]; simp)] at hloop
  have htr : (fetch K).truthy = true := by
    simp [Pipeline.truthy, hurl]
  unfold wait_for_pipeline
  rw [hloop]
  dsimp only
  simp [htr, hurl]

/-- Witness for C6: a pipeline stuck in "running" with elapsed times 10, 20,
30 against a bound of 25: timeout at the third check, URL preserved. -/
theorem waitForPipeline_timeout_keeps_url_witness :
    wait_for_pipeline (fun _ => ⟨some "running", some "https://x/p/1", false⟩)
        (fun k => (k : ℚ) * 10) (.ok []) (fun _ => .error ()) 1 25 true 10 =
      some { finalStatus := "timeout", pipelineId := 1,
             pipelineUrl := some "https://x/p/1", checksPerformed := 3,
             jobSummary := none, failedJobs := none } := by
  exact waitForPipeline_timeout_keeps_url
    (fun _ => ⟨some "running", some "https://x/p/1", false⟩)
    (fun k => (k : ℚ) * 10) (.ok []) (fun _ => .error ()) 1 25 true 3 10
    "https://x/p/1"
    (by omega) (by omega)
    (by intro i _ _; rfl)
    (by
      intro i h1 h2
      interval_cases i
      · norm_num
      · norm_num)
    (by norm_num)
    rfl

/-- The environment of the C5 counterexample and witness: a pipeline that is
already "failed" at the first fetch, one failed job, and a log whose last 10
raw lines (after stripping only the ends) include interior blank lines. -/
def c5Fetch : Nat → Pipeline := fun _ => ⟨some "failed", some "https://x/p/1", false⟩

def c5Jobs : List Job := [⟨1, some "build", some "failed", some "https://x/j/1"⟩]

def c5Log : String := "l1\na\n\nb\n\nc\n\nd\n\ne\n\nf"

def c5JobLog : Nat → Except Unit String := fun _ => .ok c5Log

/-- C5 counterexample: the log has non-blank lines l1,a,b,c,d,e,f (seven of
them, fewer than 10) interleaved with blank lines.  Per the claim, the
record's tail would hold exactly those non-blank lines (blank lines filtered
before truncation, never counting toward the 10).  The code instead takes the
last 10 raw lines of the end-stripped log: the recorded tail contains blank
lines and omits the non-blank lines l1 and a.  (The filtered computation,
which the claim describes, is the one in `enrich_jobs_with_failure_logs` —
`wait_for_pipeline` does not use it.) -/
theorem waitForPipeline_blank_lines_counterexample :
    wait_for_pipeline c5Fetch (fun _ => 0) (.ok c5Jobs) c5JobLog 1 3600 true 10 =
      some { finalStatus := "failed", pipelineId := 1,
             pipelineUrl := some "https://x/p/1", checksPerformed := 1,
             jobSummary := some ⟨1, 0, 1⟩,
             failedJobs := some [{
               id := some 1, name := some "build",
               status := some "failed", webUrl := some "https://x/j/1",
               lastLogLines := "\nb\n\nc\n\nd\n\ne\n\nf" }] } ∧
    "" ∈ splitNl "\nb\n\nc\n\nd\n\ne\n\nf" ∧
    enrichLogTail c5Log = "l1\na\nb\nc\nd\ne\nf" ∧
    "\nb\n\nc\n\nd\n\ne\n\nf" ≠ "l1\na\nb\nc\nd\ne\nf" := by
  refine ⟨by decide, by decide, by decide, by decide⟩

/-- C5 (amended): when the poller reaches terminal status "failed" with
enrichment requested and the job listing succeeds, the result contains detail
records for exactly the first 5 failed jobs in listing order (at most 5), and
each record's log tail is the join of the last at-most-10 lines of the
end-stripped log — interior blank lines are not filtered and count toward the
10 (blank-line filtering exists only in `enrich_jobs_with_failure_logs`,
which `wait_for_pipeline` does not call) — or the placeholder
"(log unavailable)" when the log fetch fails. -/
theorem waitForPipeline_failed_logs (fetch : Nat → Pipeline) (elapsed : Nat → ℚ)
    (jobs : List Job) (jobLog : Nat → Except Unit String) (pipelineId : Nat)
    (timeoutSeconds : ℚ) (K fuel : Nat)
    (hK : 1 ≤ K) (hfuel : K ≤ fuel)
    (hpre : ∀ i, 1 ≤ i → i < K →
      isTerminalStatus (fetch i).status = false ∧ ¬(elapsed i > timeoutSeconds))
    (hterm : (fetch K).status = some "failed") :
    wait_for_pipeline fetch elapsed (.ok jobs) jobLog pipelineId timeoutSeconds
        true fuel =
      some { finalStatus := "failed", pipelineId := pipelineId,
             pipelineUrl := (fetch K).webUrl,
             checksPerformed := K,
             jobSummary := some ⟨jobs.length,
               (jobs.filter (fun j => j.status == some "success")).length,
               (jobs.filter (fun j => j.status == some "failed")).length⟩,
             failedJobs := some
               (((jobs.filter (fun j => j.status == some "failed")).take 5).map
                 (mkFailedJobDetail jobLog)) } ∧
    ((jobs.filter (fun j => j.status == some "failed")).take 5).length ≤ 5 ∧
    (∀ j : Job, ∃ L : List String, L.length ≤ 10 ∧
      ((mkFailedJobDetail jobLog j).lastLogLines = String.intercalate "\n" L ∨
       (mkFailedJobDetail jobLog j).lastLogLines = "(log unavailable)")) := by
  have hts : isTerminalStatus (fetch K).status = true := by rw [hterm]; rfl
  have hloop := waitLoop_exits fetch elapsed timeoutSeconds fuel 1 K hK (by omega)
    (fun i h1 h2 => hpre i h1 h2) (Or.inl hts)
  rw [if_pos hts, hterm] at hloop
  have htr : (fetch K).truthy = true := by
    simp [Pipeline.truthy, hterm]
  refine ⟨?_, ?_, ?_⟩
  · unfold wait_for_pipeline
    rw [hloop]
    dsimp only
    simp only [Option.getD_some]
    rw [if_pos (by rw [htr]; rfl)]
    rw [if_pos (show (true && "failed" == "failed") = true from rfl)]
    simp [htr]
  · rw [List.length_take]
    omega
  · intro j
    cases hlog : jobLog j.id with
    | ok log =>
      refine ⟨lastN 10 (splitNl (pyStrip log)), ?_, Or.inl ?_⟩
      · have := List.length_drop ((splitNl (pyStrip log)).length - 10)
          (splitNl (pyStrip log))
        simp only [lastN]
        omega
      · simp [mkFailedJobDetail, hlog, waitLogTail]
    | error e =>
      refine ⟨[], by simp, Or.inr ?_⟩
      simp [mkFailedJobDetail, hlog]

/-- Witness for C5 (amended): the concrete single-failed-job environment. -/
theorem waitForPipeline_failed_logs_witness :
    wait_for_pipeline c5Fetch (fun _ => 0) (.ok c5Jobs) c5JobLog 1 3600 true 10 =
      some { finalStatus := "failed", pipelineId := 1,
             pipelineUrl := some "https://x/p/1",
             checksPerformed := 1,
             jobSummary := some ⟨c5Jobs.length,
               (c5Jobs.filter (fun j => j.status == some "success")).length,
               (c5Jobs.filter (fun j => j.status == some "failed")).length⟩,
             failedJobs := some
               (((c5Jobs.filter (fun j => j.status == some "failed")).take 5).map
                 (mkFailedJobDetail c5JobLog)) } := by
  have h := waitForPipeline_failed_logs c5Fetch (fun _ => 0) c5Jobs c5JobLog 1
    3600 1 10 (by omega) (by omega)
    (by intro i h1 h2; omega)
    (by rfl)
  exact h.1

end GitLabApi
